import Mathlib

/-!
Verification of the sympcheck symptom-triage chatbot core against its
natural-language specification.  The Python sources are shallowly embedded:
`medical_logic.py` (conversation flow engine), `conversation_manager.py`
(session store) and `audio_conversation_service.py` (audio pipeline
orchestrator).  External provider calls (Groq text generation, Azure
speech-to-text, ElevenLabs text-to-speech) are modelled as oracle
parameters; a provider call that raises is an `Except.error`, a call that
returns Python `None` is `Except.ok none`.
-/

namespace SympCheck

/-! ## Python string primitives, embedded over `List Char` -/

/-- Python `str.strip()`: drop whitespace from both ends. -/
def pyStripL (l : List Char) : List Char :=
  ((l.dropWhile Char.isWhitespace).reverse.dropWhile Char.isWhitespace).reverse

/-- Python `re.sub(r'\s+', ' ', s)`, char by char: `inRun` records whether
the previous character belonged to a whitespace run already emitted as a
single space. -/
def collapseWsGo (inRun : Bool) : List Char → List Char
  | [] => []
  | c :: cs =>
    if c.isWhitespace then
      if inRun then collapseWsGo true cs else ' ' :: collapseWsGo true cs
    else c :: collapseWsGo false cs

/-- Python `re.sub(r'\s+', ' ', s)`: collapse each maximal whitespace run
to a single space. -/
def collapseWs (l : List Char) : List Char := collapseWsGo false l

/-- Python `str.replace(pat, rep)` scanning left to right; `skip` counts
characters of an already-matched occurrence still to be consumed. -/
def pyReplaceGo (pat rep : List Char) : Nat → List Char → List Char
  | _, [] => []
  | skip + 1, _ :: cs => pyReplaceGo pat rep skip cs
  | 0, c :: cs =>
    if pat.isPrefixOf (c :: cs) then rep ++ pyReplaceGo pat rep (pat.length - 1) cs
    else c :: pyReplaceGo pat rep 0 cs

/-- Python `str.replace(pat, rep)`: replace each non-overlapping occurrence
of `pat`, scanning left to right (`pat` nonempty in all uses). -/
def pyReplaceL (pat rep l : List Char) : List Char :=
  pyReplaceGo pat rep 0 l

def pyReplace (s pat rep : String) : String :=
  String.mk (pyReplaceL pat.toList rep.toList s.toList)

/-- Python `str.lower()` (ASCII domain). -/
def pyLower (s : String) : String :=
  String.mk (s.toList.map Char.toLower)

/-- Python `str.strip()` on `String`. -/
def pyStrip (s : String) : String :=
  String.mk (pyStripL s.toList)

/-- Python `str.capitalize()`: first character uppercased, the rest
lowercased. -/
def pyCapitalize (s : String) : String :=
  match s.toList with
  | [] => s
  | c :: cs => String.mk (c.toUpper :: cs.map Char.toLower)

/-- Substring occurrence on character lists: `occursIn pat l` is true iff
`pat` occurs contiguously somewhere in `l`. -/
def occursIn (pat : List Char) : List Char → Bool
  | [] => pat.isEmpty
  | c :: cs => pat.isPrefixOf (c :: cs) || occursIn pat cs

/-- Python `pat in s` (substring test). -/
def pyContains (s pat : String) : Bool :=
  occursIn pat.toList s.toList

/-- Python `s.startswith(pat)`. -/
def pyStartsWith (s pat : String) : Bool :=
  pat.toList.isPrefixOf s.toList

/-- Python `s[n:]` by character index. -/
def pyDropChars (s : String) (n : Nat) : String :=
  String.mk (s.toList.drop n)

/-- Python truthiness of an `Optional[str]`: `None` and `""` are falsy. -/
def pyTruthyStr : Option String → Bool
  | none => false
  | some s => !(s == "")

/-- Python truthiness of an `Optional[bytes]`: `None` and `b""` are falsy. -/
def pyTruthyBytes : Option (List Nat) → Bool
  | none => false
  | some l => !l.isEmpty

/-! ## `medical_logic.py` — the conversation flow engine

The conversation state dictionary is embedded as a structure (keys
`question_number`, `is_complete`, `initial_symptom`, `answers`; the
timestamp keys live in the session store model below).  The Groq client is
an oracle: each method either raises (`Except.error` with the exception
message) or returns an `Optional[str]`. -/

structure ConversationState where
  question_number : Nat
  is_complete : Bool
  initial_symptom : String
  answers : List String
deriving Repr, DecidableEq

structure GroqClient where
  generate_follow_up_question : String → Nat → List String → Except String (Option String)
  generate_diagnosis : String → List String → Except String (Option String)

structure BotResponse where
  bot_message : String
  conversation_state : ConversationState
deriving Repr, DecidableEq

/-- `MedicalLogic.max_questions`. -/
def max_questions : Nat := 3

/-- `MedicalLogic.symptom_patterns`, in dict insertion order. -/
def symptom_patterns : List (String × List String) :=
  [("headache", ["headache", "head pain", "head ache", "migraine"]),
   ("fever", ["fever", "temperature", "hot", "burning up"]),
   ("cough", ["cough", "coughing", "hack"]),
   ("pain", ["pain", "hurt", "ache", "sore"]),
   ("nausea", ["nausea", "nauseous", "sick to stomach", "queasy"]),
   ("fatigue", ["tired", "fatigue", "exhausted", "weak"]),
   ("dizziness", ["dizzy", "dizziness", "lightheaded", "vertigo"])]

/-- `MedicalLogic._normalize_message`: strip, collapse whitespace runs,
then the replacement chain
`.replace('yes','yes').replace('no','no').replace('y','yes').replace('n','no')`. -/
def normalize_message (message : String) : String :=
  let m := String.mk (collapseWs (pyStripL message.toList))
  let m := pyReplace (pyReplace m "yes" "yes") "no" "no"
  pyReplace (pyReplace m "y" "yes") "n" "no"

/-- Inner loop of `MedicalLogic._extract_symptom`: scan the patterns of one
group, returning the group label on the first pattern found in the message. -/
def findPattern (message_lower : String) (symptom_type : String) :
    List String → Option String
  | [] => none
  | p :: ps =>
    if pyContains message_lower p then some symptom_type
    else findPattern message_lower symptom_type ps

/-- Outer loop of `MedicalLogic._extract_symptom` over the pattern table. -/
def findGroup (message_lower : String) :
    List (String × List String) → Option String
  | [] => none
  | (symptom_type, patterns) :: rest =>
    match findPattern message_lower symptom_type patterns with
    | some r => some r
    | none => findGroup message_lower rest

/-- `MedicalLogic._clean_symptom_text`'s prefix table. -/
def prefixes_to_remove : List String :=
  ["i have", "i am experiencing", "i feel", "i got", "i'm having"]

/-- The prefix-stripping loop of `_clean_symptom_text` (first matching
leading phrase only, then `break`). -/
def stripLeadingPhrase (text_lower : String) : List String → String
  | [] => text_lower
  | p :: ps =>
    if pyStartsWith text_lower p then pyStrip (pyDropChars text_lower p.toList.length)
    else stripLeadingPhrase text_lower ps

/-- `MedicalLogic._clean_symptom_text`. -/
def clean_symptom_text (text : String) : String :=
  let text_lower := pyStrip (pyLower text)
  let text_lower := stripLeadingPhrase text_lower prefixes_to_remove
  if text_lower = "" then text else pyCapitalize text_lower

/-- `MedicalLogic._extract_symptom`. -/
def extract_symptom (message : String) : String :=
  match findGroup (pyLower message) symptom_patterns with
  | some s => s
  | none => clean_symptom_text message

/-- `MedicalLogic._generate_follow_up_question`: exceptions from the client
are caught locally and turned into `None`. -/
def generate_follow_up_question (g : GroqClient) (symptom : String)
    (question_number : Nat) (previous_answers : List String) : Option String :=
  match g.generate_follow_up_question symptom question_number previous_answers with
  | .error _ => none
  | .ok r => r

/-- `MedicalLogic._get_fallback_question`: first entry of the static list
for the given position, generic question outside 1..3. -/
def get_fallback_question (question_number : Nat) : String :=
  match question_number with
  | 1 => "How long have you been experiencing this symptom?"
  | 2 => "Are you experiencing any other symptoms along with this?"
  | 3 => "How is this affecting your daily activities?"
  | _ => "How are you feeling now?"

/-- `MedicalLogic._get_fallback_diagnosis` (the f-string template,
whitespace reproduced). -/
def get_fallback_diagnosis (s : ConversationState) : String :=
  "Based on your symptoms of " ++ s.initial_symptom ++ " and your responses (" ++
    String.intercalate ", " s.answers ++ "), \n        I recommend that you:\n        \n        1. Monitor your symptoms closely\n        2. Get adequate rest and stay hydrated\n        3. Consider over-the-counter pain relief if appropriate\n        4. Consult with a healthcare professional if symptoms persist or worsen\n        \n        This is general advice only. Please seek professional medical attention for proper diagnosis and treatment."

/-- `MedicalLogic._generate_diagnosis`: exceptions and falsy results both
fall back to the static diagnosis template. -/
def generate_diagnosis (g : GroqClient) (s : ConversationState) : String :=
  match g.generate_diagnosis s.initial_symptom s.answers with
  | .error _ => get_fallback_diagnosis s
  | .ok d => if pyTruthyStr d then d.getD "" else get_fallback_diagnosis s

/-- `MedicalLogic._handle_initial_symptom`. -/
def handle_initial_symptom (g : GroqClient) (message : String)
    (s : ConversationState) : BotResponse :=
  let symptom := extract_symptom message
  let s := { s with initial_symptom := symptom, question_number := 1 }
  let question := generate_follow_up_question g symptom 1 []
  let question :=
    if pyTruthyStr question then question.getD "" else get_fallback_question 1
  ⟨question, s⟩

/-- `MedicalLogic._handle_follow_up_response`.  The answer is appended
before the branch; in the diagnosis branch `question_number` is left
untouched and `is_complete` is set. -/
def handle_follow_up_response (g : GroqClient) (message : String)
    (s : ConversationState) : BotResponse :=
  let current_question := s.question_number
  let s := { s with answers := s.answers ++ [message] }
  if max_questions ≤ current_question then
    let diagnosis := generate_diagnosis g s
    ⟨diagnosis, { s with is_complete := true }⟩
  else
    let next_question_num := current_question + 1
    let question :=
      generate_follow_up_question g s.initial_symptom next_question_num s.answers
    let question :=
      if pyTruthyStr question then question.getD ""
      else get_fallback_question next_question_num
    ⟨question, { s with question_number := next_question_num }⟩

/-- `MedicalLogic.process_message`.  The embedded body is total, so the
top-level `try`/`except` never fires here; `create_error_response` below is
what that handler would return. -/
def process_message (g : GroqClient) (user_message : String)
    (s : ConversationState) : BotResponse :=
  let normalized_message := normalize_message user_message
  if s.question_number = 0 then handle_initial_symptom g normalized_message s
  else handle_follow_up_response g normalized_message s

/-- `MedicalLogic._create_error_response`. -/
def create_error_response (s : ConversationState) : BotResponse :=
  ⟨"I'm sorry, I'm having trouble processing your message right now. Please try again or consult a healthcare professional for immediate assistance.", s⟩

/-- Iterate `process_message`, threading the conversation state. -/
def runFlow (g : GroqClient) (msgs : List String) (s : ConversationState) :
    ConversationState :=
  msgs.foldl (fun st m => (process_message g m st).conversation_state) s

/-- A Groq client whose every call returns Python `None`. -/
def groqNone : GroqClient :=
  ⟨fun _ _ _ => .ok none, fun _ _ => .ok none⟩

/-- A Groq client whose every call raises. -/
def groqRaise : GroqClient :=
  ⟨fun _ _ _ => .error "boom", fun _ _ => .error "boom"⟩

/-- Replace every exception a Groq client raises by a `None` return. -/
def catchToNone (g : GroqClient) : GroqClient :=
  ⟨fun a b c => .ok (match g.generate_follow_up_question a b c with
      | .error _ => none
      | .ok r => r),
   fun a b => .ok (match g.generate_diagnosis a b with
      | .error _ => none
      | .ok r => r)⟩

/-! ## `conversation_manager.py` — the session store

Timestamps are modelled as `Nat` seconds; `last_updated : Option Nat` with
`none` standing for a stored timestamp string `datetime.fromisoformat`
cannot parse (the `ValueError`/`KeyError` branch).  The store is a total
map from session ids to optional stored states. -/

structure StoredConversation where
  question_number : Nat
  is_complete : Bool
  initial_symptom : String
  answers : List String
  created_at : Nat
  last_updated : Option Nat
deriving Repr, DecidableEq

def SessionStore : Type := String → Option StoredConversation

/-- `ConversationManager.expiry_hours`. -/
def expiry_hours : Nat := 24

/-- Store update `self.conversations[session_id] = c`. -/
def storePut (store : SessionStore) (session_id : String)
    (c : StoredConversation) : SessionStore :=
  fun k => if k = session_id then some c else store k

/-- `ConversationManager._create_new_conversation` at the current time. -/
def create_new_conversation (now : Nat) : StoredConversation :=
  ⟨0, false, "", [], now, some now⟩

/-- `ConversationManager._is_conversation_expired`:
`datetime.utcnow() > last_updated + timedelta(hours=24)`, and an
unparsable timestamp counts as expired. -/
def is_conversation_expired (now : Nat) (c : StoredConversation) : Bool :=
  match c.last_updated with
  | none => true
  | some t => decide (t + expiry_hours * 3600 < now)

/-- `ConversationManager.get_conversation`: create on absence, replace on
expiry, otherwise return the stored state. -/
def get_conversation (now : Nat) (store : SessionStore) (session_id : String) :
    StoredConversation × SessionStore :=
  match store session_id with
  | none =>
    let c := create_new_conversation now
    (c, storePut store session_id c)
  | some conversation =>
    if is_conversation_expired now conversation then
      let c := create_new_conversation now
      (c, storePut store session_id c)
    else (conversation, store)

/-- `ConversationManager.reset_conversation`. -/
def reset_conversation (now : Nat) (store : SessionStore) (session_id : String) :
    SessionStore :=
  storePut store session_id (create_new_conversation now)

/-! ## `audio_conversation_service.py` — the audio pipeline orchestrator

The three provider adapters are oracles; an oracle value `Except.error e`
models the call raising an exception with message `e` (caught by the
orchestrator's top-level handler), `Except.ok none` models a `None` return
and `Except.ok (some x)` a normal return.  Audio bytes are `List Nat`. -/

structure HistoryEntry where
  role : String
  content : String
deriving Repr, DecidableEq

structure AudioResultBytes where
  success : Bool
  transcribed_text : String
  ai_response : String
  audio_response_bytes : List Nat
  error : String
deriving Repr, DecidableEq

structure AudioResultPath where
  success : Bool
  transcribed_text : String
  ai_response : String
  audio_response_path : String
  error : String
deriving Repr, DecidableEq

/-- `AudioConversationService._update_conversation_history`: append the
user/assistant pair, then keep only the last 20 entries. -/
def update_conversation_history (h : List HistoryEntry) (user_input : String)
    (ai_response : String) : List HistoryEntry :=
  let h := h ++ [⟨"user", user_input⟩, ⟨"assistant", ai_response⟩]
  if 20 < h.length then h.drop (h.length - 20) else h

/-- `AudioConversationService.process_audio_conversation_from_bytes`,
returning the result dictionary together with the updated
`conversation_history`.  `transcribe` models
`azure_speech.transcribe_audio_from_bytes(audio_bytes, language)` for the
given audio, `gen` models
`groq_client.generate_audio_conversation_response`, `tts` models
`elevenlabs_service.text_to_speech`. -/
def process_audio_conversation_from_bytes
    (transcribe : Except String (Option String))
    (gen : String → List HistoryEntry → Except String (Option String))
    (tts : String → Except String (Option (List Nat)))
    (history : List HistoryEntry) : AudioResultBytes × List HistoryEntry :=
  let result : AudioResultBytes := ⟨false, "", "", [], ""⟩
  match transcribe with
  | .error e => ({ result with error := "Processing error: " ++ e }, history)
  | .ok transcribed_text =>
    if !pyTruthyStr transcribed_text then
      ({ result with error := "Failed to transcribe audio" }, history)
    else
      let t := transcribed_text.getD ""
      let result := { result with transcribed_text := t }
      match gen t history with
      | .error e => ({ result with error := "Processing error: " ++ e }, history)
      | .ok ai_response =>
        if !pyTruthyStr ai_response then
          ({ result with error := "Failed to generate AI response" }, history)
        else
          let a := ai_response.getD ""
          let result := { result with ai_response := a }
          match tts a with
          | .error e =>
            ({ result with error := "Processing error: " ++ e }, history)
          | .ok audio_response_bytes =>
            if !pyTruthyBytes audio_response_bytes then
              ({ result with error := "Failed to generate audio response" }, history)
            else
              let result := { result with
                audio_response_bytes := audio_response_bytes.getD [],
                success := true }
              (result, update_conversation_history history t a)

/-- `AudioConversationService._generate_audio_response`: call the
text-to-speech adapter writing to a fresh temporary path; exceptions and
falsy audio both yield `None`. -/
def generate_audio_response (tts : String → Except String (Option (List Nat)))
    (temp_path : String) (text : String) : Option String :=
  match tts text with
  | .error _ => none
  | .ok audio_data => if pyTruthyBytes audio_data then some temp_path else none

/-- `AudioConversationService.process_audio_conversation` (the
filesystem-path call shape).  `transcribe` models
`azure_speech.transcribe_audio(audio_file_path, language)`. -/
def process_audio_conversation
    (transcribe : Except String (Option String))
    (gen : String → List HistoryEntry → Except String (Option String))
    (tts : String → Except String (Option (List Nat)))
    (temp_path : String)
    (history : List HistoryEntry) : AudioResultPath × List HistoryEntry :=
  let result : AudioResultPath := ⟨false, "", "", "", ""⟩
  match transcribe with
  | .error e => ({ result with error := "Processing error: " ++ e }, history)
  | .ok transcribed_text =>
    if !pyTruthyStr transcribed_text then
      ({ result with error := "Failed to transcribe audio" }, history)
    else
      let t := transcribed_text.getD ""
      let result := { result with transcribed_text := t }
      match gen t history with
      | .error e => ({ result with error := "Processing error: " ++ e }, history)
      | .ok ai_response =>
        if !pyTruthyStr ai_response then
          ({ result with error := "Failed to generate AI response" }, history)
        else
          let a := ai_response.getD ""
          let result := { result with ai_response := a }
          let audio_response_path := generate_audio_response tts temp_path a
          if !pyTruthyStr audio_response_path then
            ({ result with error := "Failed to generate audio response" }, history)
          else
            let result := { result with
              audio_response_path := audio_response_path.getD "",
              success := true }
            (result, update_conversation_history history t a)

/-- One audio turn's oracle bundle for the bytes call shape. -/
structure BytesTurn where
  transcribe : Except String (Option String)
  gen : String → List HistoryEntry → Except String (Option String)
  tts : String → Except String (Option (List Nat))

/-- Fold a sequence of bytes-shape audio turns over the rolling history. -/
def runBytesTurns (turns : List BytesTurn) (history : List HistoryEntry) :
    List HistoryEntry :=
  turns.foldl
    (fun h t => (process_audio_conversation_from_bytes t.transcribe t.gen t.tts h).2)
    history

/-! ## Spec-side definitions

Definitions written from the specification's words, to be compared with the
source embeddings above. -/

/-- Spec-side normalization: "collapse whitespace runs to single spaces,
trim ends" and nothing else. -/
def normalizeSpec (message : String) : String :=
  String.mk (collapseWs (pyStripL message.toList))

/-- Spec-side classification: the first group in the table one of whose
patterns occurs case-insensitively as a substring, scanning table order. -/
def classifySpec (message : String) : Option String :=
  (symptom_patterns.find? fun grp =>
      grp.2.any fun p => pyContains (pyLower message) p).map Prod.fst

/-- Spec-side symptom fallback: the first matching leading phrase stripped
from the start, the remainder capitalized at the first character. -/
def cleanSymptomSpec (message : String) : String :=
  let tl := pyStrip (pyLower message)
  let stripped :=
    match prefixes_to_remove.find? (fun p => pyStartsWith tl p) with
    | some p => pyStrip (pyDropChars tl p.toList.length)
    | none => tl
  if stripped = "" then message else pyCapitalize stripped

/-- Spec-side symptom extraction: first matching group label, else the
stripped-and-capitalized fallback. -/
def extractSymptomSpec (message : String) : String :=
  (classifySpec message).getD (cleanSymptomSpec message)

/-- The invariant tying a flow state to the number of turns processed. -/
def flowInv (k : Nat) (s : ConversationState) : Prop :=
  s.answers.length = k - 1 ∧ s.question_number = min k 3
    ∧ s.is_complete = decide (4 ≤ k)

/-- Whether the bytes-shape speech-synthesis stage produces usable audio
for the given reply text. -/
def stage3OkBytes (tts : String → Except String (Option (List Nat)))
    (s : String) : Bool :=
  match tts s with
  | .error _ => false
  | .ok d => pyTruthyBytes d

/-- Whether the path-shape speech-synthesis stage produces a usable audio
path for the given reply text. -/
def stage3OkPath (tts : String → Except String (Option (List Nat)))
    (temp_path s : String) : Bool :=
  pyTruthyStr (generate_audio_response tts temp_path s)

/-- Spec-side shared semantics of one audio turn, abstracting the audio
transport: the transcript, reply, success flag and updated history that
both call shapes must agree on, with the synthesis stage reduced to its
success predicate. -/
def audioTurnCore (tr : Except String (Option String))
    (gen : String → List HistoryEntry → Except String (Option String))
    (stage3Ok : String → Bool)
    (hist : List HistoryEntry) : (String × String × Bool) × List HistoryEntry :=
  match tr with
  | .error _ => (("", "", false), hist)
  | .ok t =>
    if pyTruthyStr t = false then (("", "", false), hist)
    else
      let t' := t.getD ""
      match gen t' hist with
      | .error _ => ((t', "", false), hist)
      | .ok a =>
        if pyTruthyStr a = false then ((t', "", false), hist)
        else
          let a' := a.getD ""
          if stage3Ok a' = false then ((t', a', false), hist)
          else ((t', a', true), update_conversation_history hist t' a')

/-! ## Flow engine: single-step characterizations -/

/-- A turn at `question_number = 0` stores the classified symptom and moves
to question 1, leaving `answers` and `is_complete` untouched. -/
theorem process_message_qzero (g : GroqClient) (m : String)
    (s : ConversationState) (h : s.question_number = 0) :
    process_message g m s =
      ⟨(if pyTruthyStr (generate_follow_up_question g
            (extract_symptom (normalize_message m)) 1 []) then
          (generate_follow_up_question g
            (extract_symptom (normalize_message m)) 1 []).getD ""
        else get_fallback_question 1),
       { s with initial_symptom := extract_symptom (normalize_message m),
                question_number := 1 }⟩ := by
  simp only [process_message, h, if_pos]
  rfl

/-- A follow-up turn strictly below the question cap appends the normalized
answer and increments `question_number`. -/
theorem process_message_mid (g : GroqClient) (m : String)
    (s : ConversationState) (h0 : s.question_number ≠ 0)
    (h3 : s.question_number < max_questions) :
    process_message g m s =
      ⟨(if pyTruthyStr (generate_follow_up_question g s.initial_symptom
            (s.question_number + 1) (s.answers ++ [normalize_message m])) then
          (generate_follow_up_question g s.initial_symptom
            (s.question_number + 1) (s.answers ++ [normalize_message m])).getD ""
        else get_fallback_question (s.question_number + 1)),
       { s with answers := s.answers ++ [normalize_message m],
                question_number := s.question_number + 1 }⟩ := by
  simp only [process_message, if_neg h0]
  simp only [handle_follow_up_response, if_neg (Nat.not_le.mpr h3)]

/-- A follow-up turn at or beyond the question cap appends the normalized
answer, produces a diagnosis, marks the session complete and leaves
`question_number` unchanged. -/
theorem process_message_max (g : GroqClient) (m : String)
    (s : ConversationState) (h3 : max_questions ≤ s.question_number) :
    process_message g m s =
      ⟨generate_diagnosis g { s with answers := s.answers ++ [normalize_message m] },
       { s with answers := s.answers ++ [normalize_message m],
                is_complete := true }⟩ := by
  have h0 : s.question_number ≠ 0 := by
    simp only [max_questions] at h3; omega
  simp only [process_message, if_neg h0]
  simp only [handle_follow_up_response, if_pos h3]

/-- The source's diagnosis helper equals its generated-or-fallback
characterization: the generated text when the provider returns a nonempty
string, the static fallback template when it returns `None`, empty text or
raises. -/
theorem generate_diagnosis_eq (g : GroqClient) (s : ConversationState) :
    generate_diagnosis g s =
      (match g.generate_diagnosis s.initial_symptom s.answers with
       | Except.ok (some d) => if d = "" then get_fallback_diagnosis s else d
       | _ => get_fallback_diagnosis s) := by
  unfold generate_diagnosis
  cases g.generate_diagnosis s.initial_symptom s.answers with
  | error e => rfl
  | ok d =>
    cases d with
    | none => rfl
    | some str =>
      by_cases hstr : str = "" <;> simp [pyTruthyStr, hstr]

/-- Claim C1, amended: processing a turn at `questionNumber = N = 3`
appends the normalized answer, produces a diagnosis (generated, or the
fixed fallback on provider failure), and marks `isComplete = true`; but
`questionNumber` is left at `N = 3` rather than incremented to `N+1 = 4`,
so it never exceeds `N`, and a repeated call on the completed state keeps
it at `N`. -/
theorem claim_C1 (g : GroqClient) (msg msg2 : String) (s : ConversationState)
    (h : s.question_number = max_questions) :
    (process_message g msg s).conversation_state =
        { s with answers := s.answers ++ [normalize_message msg],
                 is_complete := true }
    ∧ (process_message g msg s).bot_message =
        (match g.generate_diagnosis s.initial_symptom
            (s.answers ++ [normalize_message msg]) with
         | Except.ok (some d) =>
            if d = "" then
              get_fallback_diagnosis
                { s with answers := s.answers ++ [normalize_message msg],
                         is_complete := true }
            else d
         | _ => get_fallback_diagnosis
            { s with answers := s.answers ++ [normalize_message msg],
                     is_complete := true })
    ∧ (process_message g msg s).conversation_state.question_number = max_questions
    ∧ (process_message g msg2
          (process_message g msg s).conversation_state).conversation_state.question_number
        = max_questions := by
  have hle : max_questions ≤ s.question_number := le_of_eq h.symm
  rw [process_message_max g msg s hle]
  refine ⟨rfl, ?_, h, ?_⟩
  · show generate_diagnosis g
        { s with answers := s.answers ++ [normalize_message msg] } = _
    rw [generate_diagnosis_eq]
    rfl
  · rw [process_message_max g msg2
      { s with answers := s.answers ++ [normalize_message msg],
               is_complete := true } hle]
    exact h

/-- Claim C1 witness: a session at the question cap with two recorded
answers, processed with a provider that returns nothing. -/
theorem claim_C1_witness :
    (⟨3, false, "headache", ["a", "b"]⟩ : ConversationState).question_number
        = max_questions
    ∧ ((process_message groqNone "c"
          ⟨3, false, "headache", ["a", "b"]⟩).conversation_state =
        { (⟨3, false, "headache", ["a", "b"]⟩ : ConversationState) with
            answers := ["a", "b"] ++ [normalize_message "c"], is_complete := true }
    ∧ (process_message groqNone "c"
          ⟨3, false, "headache", ["a", "b"]⟩).bot_message =
        (match groqNone.generate_diagnosis "headache"
            (["a", "b"] ++ [normalize_message "c"]) with
         | Except.ok (some d) =>
            if d = "" then
              get_fallback_diagnosis
                { (⟨3, false, "headache", ["a", "b"]⟩ : ConversationState) with
                    answers := ["a", "b"] ++ [normalize_message "c"],
                    is_complete := true }
            else d
         | _ => get_fallback_diagnosis
            { (⟨3, false, "headache", ["a", "b"]⟩ : ConversationState) with
                answers := ["a", "b"] ++ [normalize_message "c"],
                is_complete := true })
    ∧ (process_message groqNone "c"
          ⟨3, false, "headache", ["a", "b"]⟩).conversation_state.question_number
        = max_questions
    ∧ (process_message groqNone "d"
          (process_message groqNone "c"
            ⟨3, false, "headache", ["a", "b"]⟩).conversation_state).conversation_state.question_number
        = max_questions) :=
  ⟨rfl, claim_C1 groqNone "c" "d" ⟨3, false, "headache", ["a", "b"]⟩ rfl⟩

/-- Claim C1 counterexample: at `questionNumber = 3` the diagnosis turn
completes the session but leaves `questionNumber` at 3 — it is not
incremented to `N+1 = 4` as the claim states. -/
theorem claim_C1_counterexample :
    (process_message groqNone "c"
        ⟨3, false, "headache", ["a", "b"]⟩).conversation_state.is_complete = true
    ∧ (process_message groqNone "c"
        ⟨3, false, "headache", ["a", "b"]⟩).conversation_state.question_number = 3
    ∧ ¬ (process_message groqNone "c"
        ⟨3, false, "headache", ["a", "b"]⟩).conversation_state.question_number = 4 := by
  decide

/-- Claim C2, amended: an exception raised by the generation client is
caught locally inside the generation helpers, never by the top-level
handler — a client that raises is indistinguishable from one that returns
`None`, so the turn proceeds with fallback content and the state still
advances.  (The fixed apologetic message of `_create_error_response` is
produced only by exceptions that reach `process_message`'s top level,
which no provider call can.) -/
theorem claim_C2 (g : GroqClient) (msg : String) (s : ConversationState) :
    process_message g msg s = process_message (catchToNone g) msg s := by
  have h1 : ∀ a b c, generate_follow_up_question (catchToNone g) a b c
      = generate_follow_up_question g a b c := by
    intro a b c
    unfold generate_follow_up_question
    have hf : (catchToNone g).generate_follow_up_question a b c
        = Except.ok (match g.generate_follow_up_question a b c with
            | .error _ => none
            | .ok r => r) := rfl
    rw [hf]
  have h2 : ∀ s' : ConversationState, generate_diagnosis (catchToNone g) s'
      = generate_diagnosis g s' := by
    intro s'
    unfold generate_diagnosis
    have hf : (catchToNone g).generate_diagnosis s'.initial_symptom s'.answers
        = Except.ok (match g.generate_diagnosis s'.initial_symptom s'.answers with
            | .error _ => none
            | .ok r => r) := rfl
    rw [hf]
    cases g.generate_diagnosis s'.initial_symptom s'.answers <;> rfl
  unfold process_message handle_initial_symptom handle_follow_up_response
  simp only [h1, h2]

/-- Claim C2 counterexample: with a client that raises on every call, a
follow-up turn does not return the fixed apologetic message with the state
unmodified — it returns the fallback question, records the answer and
advances `questionNumber`. -/
theorem claim_C2_counterexample :
    ¬ (process_message groqRaise "a week" ⟨1, false, "headache", []⟩).bot_message
        = (create_error_response ⟨1, false, "headache", []⟩).bot_message
    ∧ ¬ (process_message groqRaise "a week"
          ⟨1, false, "headache", []⟩).conversation_state
        = ⟨1, false, "headache", []⟩
    ∧ (process_message groqRaise "a week"
        ⟨1, false, "headache", []⟩).conversation_state.answers = ["a week"]
    ∧ (process_message groqRaise "a week"
        ⟨1, false, "headache", []⟩).conversation_state.question_number = 2 := by
  decide

/-- Claim C3, amended: processing a further message on a completed session
(`isComplete = true`, which the flow only produces at
`questionNumber = N = 3`) leaves `questionNumber`, `initialSymptom` and
`isComplete` unchanged but appends the normalized message to `answers`
and regenerates a diagnosis; a new cycle starts only via explicit reset,
which stores a fresh state. -/
theorem claim_C3 (g : GroqClient) (msg : String) (s : ConversationState)
    (now : Nat) (store : SessionStore) (sid : String)
    (hc : s.is_complete = true) (hq : s.question_number = max_questions) :
    (process_message g msg s).conversation_state =
        { s with answers := s.answers ++ [normalize_message msg] }
    ∧ (process_message g msg s).conversation_state.question_number
        = s.question_number
    ∧ (process_message g msg s).conversation_state.initial_symptom
        = s.initial_symptom
    ∧ (process_message g msg s).conversation_state.is_complete = true
    ∧ reset_conversation now store sid sid = some (create_new_conversation now)
    ∧ (create_new_conversation now).question_number = 0
    ∧ (create_new_conversation now).is_complete = false
    ∧ (create_new_conversation now).answers = [] := by
  rw [process_message_max g msg s (le_of_eq hq.symm)]
  refine ⟨?_, rfl, rfl, rfl, ?_, rfl, rfl, rfl⟩
  · cases s with
    | mk qn comp sym ans =>
      simp only at hc
      subst hc
      rfl
  · simp [reset_conversation, storePut]

/-- Claim C3 witness: a completed session processed once more, and a
reset on an empty store. -/
theorem claim_C3_witness :
    (⟨3, true, "headache", ["a", "b", "c"]⟩ : ConversationState).is_complete = true
    ∧ (⟨3, true, "headache", ["a", "b", "c"]⟩ : ConversationState).question_number
        = max_questions
    ∧ ((process_message groqNone "d"
          ⟨3, true, "headache", ["a", "b", "c"]⟩).conversation_state =
        { (⟨3, true, "headache", ["a", "b", "c"]⟩ : ConversationState) with
            answers := ["a", "b", "c"] ++ [normalize_message "d"] }
    ∧ (process_message groqNone "d"
          ⟨3, true, "headache", ["a", "b", "c"]⟩).conversation_state.question_number = 3
    ∧ (process_message groqNone "d"
          ⟨3, true, "headache", ["a", "b", "c"]⟩).conversation_state.initial_symptom
        = "headache"
    ∧ (process_message groqNone "d"
          ⟨3, true, "headache", ["a", "b", "c"]⟩).conversation_state.is_complete = true
    ∧ reset_conversation 5 (fun _ => none) "s1" "s1"
        = some (create_new_conversation 5)
    ∧ (create_new_conversation 5).question_number = 0
    ∧ (create_new_conversation 5).is_complete = false
    ∧ (create_new_conversation 5).answers = []) :=
  ⟨rfl, rfl,
    claim_C3 groqNone "d" ⟨3, true, "headache", ["a", "b", "c"]⟩ 5
      (fun _ => none) "s1" rfl rfl⟩

/-- Claim C3 counterexample: a completed session is not left unchanged by
a further turn — the message is appended to `answers`. -/
theorem claim_C3_counterexample :
    (process_message groqNone "d"
        ⟨3, true, "headache", ["a", "b", "c"]⟩).conversation_state.answers
      = ["a", "b", "c", "d"]
    ∧ ¬ (process_message groqNone "d"
        ⟨3, true, "headache", ["a", "b", "c"]⟩).conversation_state
      = ⟨3, true, "headache", ["a", "b", "c"]⟩ := by
  decide

/-- One processed turn advances the trace invariant: after the `k`-th turn
the answer count is `k - 1`, the question number is `min k 3` and the
session is complete exactly from the fourth turn on. -/
theorem flowInv_step (g : GroqClient) (m : String) (k : Nat)
    (s : ConversationState) (h : flowInv k s) :
    flowInv (k + 1) (process_message g m s).conversation_state := by
  obtain ⟨ha, hq, hc⟩ := h
  rcases Nat.lt_or_ge k 1 with hk | hk
  · have hk0 : k = 0 := by omega
    subst hk0
    have hq0 : s.question_number = 0 := by simpa using hq
    rw [process_message_qzero g m s hq0]
    refine ⟨by simpa using ha, ?_, ?_⟩
    · show (1 : Nat) = min (0 + 1) 3
      decide
    · show s.is_complete = _
      rw [hc]
      decide
  · rcases Nat.lt_or_ge k 3 with hk3 | hk3
    · have hqk : s.question_number = k := by rw [hq]; omega
      have h0 : s.question_number ≠ 0 := by omega
      have hlt : s.question_number < max_questions := by
        simp only [max_questions]; omega
      rw [process_message_mid g m s h0 hlt]
      refine ⟨?_, ?_, ?_⟩
      · show (s.answers ++ [normalize_message m]).length = _
        simp only [List.length_append, List.length_cons, List.length_nil, ha]
        omega
      · show s.question_number + 1 = _
        omega
      · show s.is_complete = _
        rw [hc]
        simp only [decide_eq_decide]
        omega
    · have hq3 : s.question_number = 3 := by rw [hq]; omega
      have hle : max_questions ≤ s.question_number := by
        simp only [max_questions, hq3]; omega
      rw [process_message_max g m s hle]
      refine ⟨?_, ?_, ?_⟩
      · show (s.answers ++ [normalize_message m]).length = _
        simp only [List.length_append, List.length_cons, List.length_nil, ha]
        omega
      · show s.question_number = _
        omega
      · show true = _
        have : 4 ≤ k + 1 := by omega
        simp [this]

/-- The trace invariant is preserved by any run of turns. -/
theorem flowInv_run (g : GroqClient) : ∀ (msgs : List String) (k : Nat)
    (s : ConversationState), flowInv k s →
    flowInv (k + msgs.length) (runFlow g msgs s)
  | [], k, s, h => by simpa [runFlow] using h
  | m :: ms, k, s, h => by
    have h1 := flowInv_step g m k s h
    have he : k + (m :: ms).length = (k + 1) + ms.length := by
      simp only [List.length_cons]; omega
    rw [show runFlow g (m :: ms) s
        = runFlow g ms (process_message g m s).conversation_state from rfl, he]
    exact flowInv_run g ms (k + 1) _ h1

/-- Claim C4, amended: from a fresh state, every turn with
`questionNumber ≥ 1` appends exactly one answer, so `answers.length`
always equals the number of follow-up turns processed (total turns minus
the initial one); the invariant `answers.length = questionNumber - 1`
holds after every call while the session is incomplete, but fails on the
completing turn because the diagnosis branch does not increment
`questionNumber` (after `k ≥ 4` turns, `answers.length = k - 1` while
`questionNumber` stays at 3). -/
theorem claim_C4 (g : GroqClient) (msgs : List String) :
    (runFlow g msgs ⟨0, false, "", []⟩).answers.length = msgs.length - 1
    ∧ (runFlow g msgs ⟨0, false, "", []⟩).question_number = min msgs.length 3
    ∧ (runFlow g msgs ⟨0, false, "", []⟩).is_complete = decide (4 ≤ msgs.length)
    ∧ ((runFlow g msgs ⟨0, false, "", []⟩).is_complete = false →
        (runFlow g msgs ⟨0, false, "", []⟩).answers.length
          = (runFlow g msgs ⟨0, false, "", []⟩).question_number - 1) := by
  have h0 : flowInv 0 ⟨0, false, "", []⟩ := by
    refine ⟨rfl, by decide, rfl⟩
  have h := flowInv_run g msgs 0 _ h0
  obtain ⟨ha, hq, hc⟩ := h
  simp only [Nat.zero_add] at ha hq hc
  refine ⟨ha, hq, hc, ?_⟩
  intro hfalse
  have hlt : ¬ 4 ≤ msgs.length := of_decide_eq_false (hc ▸ hfalse)
  rw [ha, hq]
  omega

/-- Claim C4 witness: after three turns (one initial, two follow-ups) the
session is incomplete and `answers.length = questionNumber - 1` holds. -/
theorem claim_C4_witness :
    (runFlow groqNone ["headache", "a", "b"] ⟨0, false, "", []⟩).is_complete = false
    ∧ (runFlow groqNone ["headache", "a", "b"] ⟨0, false, "", []⟩).answers.length
        = (runFlow groqNone ["headache", "a", "b"]
            ⟨0, false, "", []⟩).question_number - 1 :=
  ⟨by decide, (claim_C4 groqNone ["headache", "a", "b"]).2.2.2 (by decide)⟩

/-- Claim C4 counterexample: after the fourth turn (the completing one)
the state has `questionNumber = 3 ≥ 1` but `answers.length = 3 ≠ 2`, so
the invariant `answers.length = questionNumber - 1` does not hold after
every call in the follow-up phase. -/
theorem claim_C4_counterexample :
    1 ≤ (runFlow groqNone ["headache", "a", "b", "c"]
        ⟨0, false, "", []⟩).question_number
    ∧ (runFlow groqNone ["headache", "a", "b", "c"]
        ⟨0, false, "", []⟩).answers.length = 3
    ∧ ¬ (runFlow groqNone ["headache", "a", "b", "c"]
          ⟨0, false, "", []⟩).answers.length
        = (runFlow groqNone ["headache", "a", "b", "c"]
            ⟨0, false, "", []⟩).question_number - 1 := by
  decide

theorem toList_mk (l : List Char) : (String.mk l).toList = l := rfl

/-- Whitespace collapsing only introduces spaces: any character of the
output is a space or a character of the input. -/
theorem mem_collapseWsGo {c : Char} : ∀ (b : Bool) (l : List Char),
    c ∈ collapseWsGo b l → c = ' ' ∨ c ∈ l
  | _, [], h => by simp [collapseWsGo] at h
  | b, x :: xs, h => by
    unfold collapseWsGo at h
    by_cases hw : x.isWhitespace
    · rw [if_pos hw] at h
      cases b with
      | true =>
        have h' : c ∈ collapseWsGo true xs := h
        rcases mem_collapseWsGo true xs h' with h1 | h1
        · exact Or.inl h1
        · exact Or.inr (List.mem_cons_of_mem _ h1)
      | false =>
        have h' : c ∈ ' ' :: collapseWsGo true xs := h
        rcases List.mem_cons.mp h' with h1 | h1
        · exact Or.inl h1
        · rcases mem_collapseWsGo true xs h1 with h2 | h2
          · exact Or.inl h2
          · exact Or.inr (List.mem_cons_of_mem _ h2)
    · rw [if_neg hw] at h
      rcases List.mem_cons.mp h with h1 | h1
      · exact Or.inr (h1 ▸ List.mem_cons_self x xs)
      · rcases mem_collapseWsGo false xs h1 with h2 | h2
        · exact Or.inl h2
        · exact Or.inr (List.mem_cons_of_mem _ h2)

/-- Stripping only removes characters. -/
theorem mem_pyStripL {c : Char} {l : List Char} (h : c ∈ pyStripL l) :
    c ∈ l := by
  unfold pyStripL at h
  rw [List.mem_reverse] at h
  have h2 := (List.dropWhile_sublist _).subset h
  rw [List.mem_reverse] at h2
  exact (List.dropWhile_sublist _).subset h2

/-- `str.replace` is the identity on strings not containing the pattern's
first character. -/
theorem pyReplaceGo_id (hd : Char) (tl rep : List Char) :
    ∀ l : List Char, hd ∉ l → pyReplaceGo (hd :: tl) rep 0 l = l
  | [], _ => rfl
  | c :: cs, h => by
    rw [List.mem_cons] at h
    have h1 : ¬ hd = c := fun e => h (Or.inl e)
    have h2 : hd ∉ cs := fun m => h (Or.inr m)
    have hpre : (hd :: tl).isPrefixOf (c :: cs) = false := by
      rw [List.isPrefixOf_cons₂]
      simp [h1]
    show (if (hd :: tl).isPrefixOf (c :: cs) then
        rep ++ pyReplaceGo (hd :: tl) rep ((hd :: tl).length - 1) cs
      else c :: pyReplaceGo (hd :: tl) rep 0 cs) = c :: cs
    rw [hpre]
    simp only [Bool.false_eq_true, if_false]
    rw [pyReplaceGo_id hd tl rep cs h2]

/-- Claim C5, amended: normalization collapses whitespace runs to single
spaces and trims the ends, and coincides with exactly that whenever the
message contains neither `'y'` nor `'n'`; but the replacement chain is not
a no-op in general — its last two replacements substitute every occurrence
of `'y'` with `"yes"` and every `'n'` with `"no"` (only the preceding
`'yes'`/`'no'` replacements are identical ones). -/
theorem claim_C5 (msg : String) (hy : 'y' ∉ msg.toList)
    (hn : 'n' ∉ msg.toList) : normalize_message msg = normalizeSpec msg := by
  have hy' : 'y' ∉ collapseWs (pyStripL msg.toList) := by
    intro hmem
    rcases mem_collapseWsGo false (pyStripL msg.toList) hmem with h | h
    · exact absurd h (by decide)
    · exact hy (mem_pyStripL h)
  have hn' : 'n' ∉ collapseWs (pyStripL msg.toList) := by
    intro hmem
    rcases mem_collapseWsGo false (pyStripL msg.toList) hmem with h | h
    · exact absurd h (by decide)
    · exact hn (mem_pyStripL h)
  show String.mk (pyReplaceL "n".toList "no".toList (String.mk
      (pyReplaceL "y".toList "yes".toList (String.mk
        (pyReplaceL "no".toList "no".toList (String.mk
          (pyReplaceL "yes".toList "yes".toList (String.mk
            (collapseWs (pyStripL msg.toList))).toList)).toList)).toList)).toList)
    = normalizeSpec msg
  unfold pyReplaceL
  simp only [toList_mk]
  rw [show ("yes".toList) = 'y' :: ['e', 's'] from rfl,
    pyReplaceGo_id 'y' ['e', 's'] _ _ hy']
  rw [show ("no".toList) = 'n' :: ['o'] from rfl,
    pyReplaceGo_id 'n' ['o'] _ _ hn']
  rw [show ("y".toList) = 'y' :: [] from rfl,
    pyReplaceGo_id 'y' [] _ _ hy']
  rw [show ("n".toList) = 'n' :: [] from rfl,
    pyReplaceGo_id 'n' [] _ _ hn']
  rfl

/-- Claim C5 witness: a message without `'y'`/`'n'` but with a whitespace
run is exactly whitespace-normalized. -/
theorem claim_C5_witness :
    'y' ∉ "hi   there".toList ∧ 'n' ∉ "hi   there".toList
    ∧ normalize_message "hi   there" = normalizeSpec "hi   there" :=
  ⟨by decide, by decide, claim_C5 "hi   there" (by decide) (by decide)⟩

/-- Claim C5 counterexample: the replacement chain changes message
content — `"no"` normalizes to `"noo"`, not to its whitespace-normalized
self `"no"`. -/
theorem claim_C5_counterexample :
    normalize_message "no" = "noo"
    ∧ normalizeSpec "no" = "no"
    ∧ ¬ normalize_message "no" = normalizeSpec "no" := by
  decide

/-- The inner pattern loop returns the group label iff some pattern of the
group occurs in the message. -/
theorem findPattern_eq (ml lab : String) : ∀ pats : List String,
    findPattern ml lab pats
      = if pats.any (fun p => pyContains ml p) then some lab else none
  | [] => by simp [findPattern]
  | p :: ps => by
    unfold findPattern
    by_cases hp : pyContains ml p = true
    · simp [hp]
    · simp [hp, findPattern_eq ml lab ps]

/-- The nested classification loops implement first-match search over the
table: the first group one of whose patterns occurs in the message. -/
theorem findGroup_eq (ml : String) : ∀ tbl : List (String × List String),
    findGroup ml tbl
      = (tbl.find? (fun grp => grp.2.any fun p => pyContains ml p)).map Prod.fst
  | [] => by simp [findGroup]
  | (lab, pats) :: rest => by
    unfold findGroup
    rw [findPattern_eq]
    by_cases hp : pats.any (fun p => pyContains ml p) = true
    · rw [if_pos hp, List.find?_cons_of_pos _ (by simpa using hp)]
      rfl
    · rw [if_neg hp, List.find?_cons_of_neg _ (by simpa using hp)]
      exact findGroup_eq ml rest

/-- The prefix-stripping loop strips exactly the first matching leading
phrase. -/
theorem stripLeadingPhrase_eq (tl : String) : ∀ ps : List String,
    stripLeadingPhrase tl ps
      = (match ps.find? (fun p => pyStartsWith tl p) with
         | some p => pyStrip (pyDropChars tl p.toList.length)
         | none => tl)
  | [] => by simp [stripLeadingPhrase]
  | p :: ps => by
    unfold stripLeadingPhrase
    by_cases hp : pyStartsWith tl p = true
    · rw [if_pos hp, List.find?_cons_of_pos _ hp]
    · rw [if_neg hp, List.find?_cons_of_neg _ hp]
      exact stripLeadingPhrase_eq tl ps

/-- The source's symptom-text cleanup matches the spec-side description. -/
theorem clean_symptom_text_eq_spec (t : String) :
    clean_symptom_text t = cleanSymptomSpec t := by
  simp only [clean_symptom_text, cleanSymptomSpec]
  rw [stripLeadingPhrase_eq]

/-- Claim C6, amended: a turn at `questionNumber = 0` always moves to
exactly `questionNumber = 1` with `isComplete` still false, and
`initialSymptom` is computed from the *normalized* message (whitespace
collapsed, every `'y'` replaced by `"yes"` and `'n'` by `"no"`), not the
raw one: the label of the first group (table order) one of whose patterns
occurs case-insensitively in the normalized message, else the normalized
message with the first matching leading phrase stripped and the remainder
capitalized. -/
theorem claim_C6 (g : GroqClient) (msg : String) (s : ConversationState)
    (h0 : s.question_number = 0) (hc : s.is_complete = false) :
    (process_message g msg s).conversation_state.question_number = 1
    ∧ (process_message g msg s).conversation_state.is_complete = false
    ∧ (process_message g msg s).conversation_state.initial_symptom
        = extractSymptomSpec (normalize_message msg) := by
  rw [process_message_qzero g msg s h0]
  refine ⟨rfl, hc, ?_⟩
  show extract_symptom (normalize_message msg) = _
  unfold extract_symptom extractSymptomSpec classifySpec
  rw [findGroup_eq]
  cases (symptom_patterns.find? fun grp =>
      grp.2.any fun p => pyContains (pyLower (normalize_message msg)) p) with
  | none => simp [clean_symptom_text_eq_spec]
  | some grp => rfl

/-- Claim C6 witness: "I have a headache" from a fresh state classifies
into the headache group and moves to question 1. -/
theorem claim_C6_witness :
    (⟨0, false, "", []⟩ : ConversationState).question_number = 0
    ∧ (⟨0, false, "", []⟩ : ConversationState).is_complete = false
    ∧ ((process_message groqNone "I have a headache"
          ⟨0, false, "", []⟩).conversation_state.question_number = 1
    ∧ (process_message groqNone "I have a headache"
          ⟨0, false, "", []⟩).conversation_state.is_complete = false
    ∧ (process_message groqNone "I have a headache"
          ⟨0, false, "", []⟩).conversation_state.initial_symptom
        = extractSymptomSpec (normalize_message "I have a headache")) :=
  ⟨rfl, rfl, claim_C6 groqNone "I have a headache" ⟨0, false, "", []⟩ rfl rfl⟩

/-- Claim C6 counterexample: the pattern `"nausea"` occurs in the message
`"nausea"`, yet the stored symptom is `"Noausea"` — classification runs on
the normalized message (`'n'` → `"no"` turns it into `"noausea"`), so the
claim's table match on the message fails, as does its raw-message fallback
(which would give `"Nausea"`). -/
theorem claim_C6_counterexample :
    pyContains (pyLower "nausea") "nausea" = true
    ∧ (process_message groqNone "nausea"
        ⟨0, false, "", []⟩).conversation_state.initial_symptom = "Noausea"
    ∧ ¬ (process_message groqNone "nausea"
        ⟨0, false, "", []⟩).conversation_state.initial_symptom = "nausea"
    ∧ ¬ (process_message groqNone "nausea"
        ⟨0, false, "", []⟩).conversation_state.initial_symptom = "Nausea" := by
  decide

/-- Closed form of the history update: append the pair, then drop down to
the most recent 20 entries. -/
theorem update_conversation_history_eq (h : List HistoryEntry)
    (u a : String) :
    update_conversation_history h u a
      = (h ++ [(⟨"user", u⟩ : HistoryEntry), (⟨"assistant", a⟩ : HistoryEntry)]).drop (h.length + 2 - 20) := by
  simp only [update_conversation_history]
  by_cases hl : 20 < (h ++ [(⟨"user", u⟩ : HistoryEntry), (⟨"assistant", a⟩ : HistoryEntry)]).length
  · rw [if_pos hl]
    congr 1
    simp [List.length_append]
  · rw [if_neg hl]
    have h0 : h.length + 2 - 20 = 0 := by
      simp only [List.length_append, List.length_cons, List.length_nil] at hl
      omega
    rw [h0, List.drop_zero]

/-- The history update never leaves more than 20 entries (from a bounded
history). -/
theorem update_conversation_history_length (h : List HistoryEntry)
    (u a : String) (hh : h.length ≤ 20) :
    (update_conversation_history h u a).length ≤ 20 := by
  rw [update_conversation_history_eq]
  simp only [List.length_drop, List.length_append, List.length_cons,
    List.length_nil]
  omega

/-- A bytes-shape turn either leaves the history untouched (any failure)
or replaces it by the updated history (full success). -/
theorem from_bytes_history (tr : Except String (Option String))
    (gen : String → List HistoryEntry → Except String (Option String))
    (tts : String → Except String (Option (List Nat)))
    (hist : List HistoryEntry) :
    ((process_audio_conversation_from_bytes tr gen tts hist).1.success = false →
      (process_audio_conversation_from_bytes tr gen tts hist).2 = hist)
    ∧ ((process_audio_conversation_from_bytes tr gen tts hist).1.success = true →
      (process_audio_conversation_from_bytes tr gen tts hist).2
        = update_conversation_history hist
            (process_audio_conversation_from_bytes tr gen tts hist).1.transcribed_text
            (process_audio_conversation_from_bytes tr gen tts hist).1.ai_response) := by
  simp only [process_audio_conversation_from_bytes]
  repeat' split
  all_goals first
    | exact ⟨(fun _ => rfl), (fun h => nomatch h)⟩
    | exact ⟨(fun h => nomatch h), (fun _ => rfl)⟩

/-- Claim C7: the rolling history never exceeds 20 entries over any run of
bytes-shape audio turns; a turn in which any stage fails appends nothing,
and a fully successful turn appends exactly the user/assistant pair and
truncates to the most recent 20 entries. -/
theorem claim_C7 (turns : List BytesTurn)
    (tr : Except String (Option String))
    (gen : String → List HistoryEntry → Except String (Option String))
    (tts : String → Except String (Option (List Nat)))
    (hist : List HistoryEntry) :
    (runBytesTurns turns []).length ≤ 20
    ∧ ((process_audio_conversation_from_bytes tr gen tts hist).1.success = false →
        (process_audio_conversation_from_bytes tr gen tts hist).2 = hist)
    ∧ ((process_audio_conversation_from_bytes tr gen tts hist).1.success = true →
        (process_audio_conversation_from_bytes tr gen tts hist).2
          = (hist ++ [(⟨"user",
                (process_audio_conversation_from_bytes tr gen tts hist).1.transcribed_text⟩ : HistoryEntry),
              (⟨"assistant",
                (process_audio_conversation_from_bytes tr gen tts hist).1.ai_response⟩ : HistoryEntry)]).drop
              (hist.length + 2 - 20)) := by
  refine ⟨?_, (from_bytes_history tr gen tts hist).1, ?_⟩
  · have hrun : ∀ (ts : List BytesTurn) (h : List HistoryEntry),
        h.length ≤ 20 → (runBytesTurns ts h).length ≤ 20 := by
      intro ts
      induction ts with
      | nil => intro h hh; simpa [runBytesTurns] using hh
      | cons turn ts ih =>
        intro h hh
        rw [show runBytesTurns (turn :: ts) h = runBytesTurns ts
            (process_audio_conversation_from_bytes turn.transcribe turn.gen
              turn.tts h).2 from rfl]
        apply ih
        rcases Bool.eq_false_or_eq_true
            (process_audio_conversation_from_bytes turn.transcribe turn.gen
              turn.tts h).1.success with hs | hs
        · rw [(from_bytes_history _ _ _ _).2 hs]
          exact update_conversation_history_length _ _ _ hh
        · rw [(from_bytes_history _ _ _ _).1 hs]
          exact hh
    exact hrun turns [] (by simp)
  · intro hs
    rw [(from_bytes_history tr gen tts hist).2 hs,
      update_conversation_history_eq]

/-- Claim C7 witness: one fully successful turn from an empty history. -/
theorem claim_C7_witness :
    (runBytesTurns [⟨Except.ok (some "hello"), fun _ _ => Except.ok (some "hi"),
        fun _ => Except.ok (some [1])⟩] []).length ≤ 20
    ∧ (process_audio_conversation_from_bytes (Except.ok (some "hello"))
          (fun _ _ => Except.ok (some "hi")) (fun _ => Except.ok (some [1]))
          []).2
        = (([] : List HistoryEntry)
            ++ [(⟨"user", (process_audio_conversation_from_bytes
                  (Except.ok (some "hello")) (fun _ _ => Except.ok (some "hi"))
                  (fun _ => Except.ok (some [1])) []).1.transcribed_text⟩ : HistoryEntry),
                (⟨"assistant", (process_audio_conversation_from_bytes
                  (Except.ok (some "hello")) (fun _ _ => Except.ok (some "hi"))
                  (fun _ => Except.ok (some [1])) []).1.ai_response⟩ : HistoryEntry)]).drop
            (([] : List HistoryEntry).length + 2 - 20) :=
  ⟨(claim_C7 [⟨Except.ok (some "hello"), fun _ _ => Except.ok (some "hi"),
      fun _ => Except.ok (some [1])⟩] (Except.ok (some "hello"))
      (fun _ _ => Except.ok (some "hi")) (fun _ => Except.ok (some [1])) []).1,
   (claim_C7 [⟨Except.ok (some "hello"), fun _ _ => Except.ok (some "hi"),
      fun _ => Except.ok (some [1])⟩] (Except.ok (some "hello"))
      (fun _ _ => Except.ok (some "hi")) (fun _ => Except.ok (some [1])) []).2.2
    (by decide)⟩

/-- Claim C8: with the bundled provider adapters (which catch their own
exceptions and return `None`/empty on failure, per their `Optional` return
contracts), a bytes-shape audio turn is fully characterized: a
transcription failure yields the stage-naming error with no transcript or
reply; a response-generation failure preserves the transcript; a synthesis
failure preserves transcript and reply; success is reported exactly when
all three stages produced a usable (truthy) result, and only then is the
history updated. -/
theorem claim_C8 (t : Option String)
    (gen : String → List HistoryEntry → Option String)
    (tts : String → Option (List Nat)) (hist : List HistoryEntry) :
    process_audio_conversation_from_bytes (Except.ok t)
        (fun s h => Except.ok (gen s h)) (fun s => Except.ok (tts s)) hist
      = (if pyTruthyStr t = false then
           (⟨false, "", "", [], "Failed to transcribe audio"⟩, hist)
         else if pyTruthyStr (gen (t.getD "") hist) = false then
           (⟨false, t.getD "", "", [], "Failed to generate AI response"⟩, hist)
         else if pyTruthyBytes (tts ((gen (t.getD "") hist).getD "")) = false then
           (⟨false, t.getD "", (gen (t.getD "") hist).getD "", [],
             "Failed to generate audio response"⟩, hist)
         else
           (⟨true, t.getD "", (gen (t.getD "") hist).getD "",
             (tts ((gen (t.getD "") hist).getD "")).getD [], ""⟩,
            update_conversation_history hist (t.getD "")
              ((gen (t.getD "") hist).getD ""))) := by
  simp only [process_audio_conversation_from_bytes]
  cases ht : pyTruthyStr t with
  | false => simp [ht]
  | true =>
    cases hg : pyTruthyStr (gen (t.getD "") hist) with
    | false => simp [ht, hg]
    | true =>
      cases hb : pyTruthyBytes (tts ((gen (t.getD "") hist).getD "")) with
      | false => simp [ht, hg, hb]
      | true => simp [ht, hg, hb]

/-- Claim C9: `get` never fails and hides expiry: on an absent session id
it creates and stores a fresh state, and whenever the stored session is
expired (over 24h stale, or unparsable timestamp) a single `get` returns
and stores a state indistinguishable from a brand-new session. -/
theorem claim_C9 (now : Nat) (store : SessionStore) (sid : String)
    (h : ∀ c, store sid = some c → is_conversation_expired now c = true) :
    (get_conversation now store sid).1 = create_new_conversation now
    ∧ (get_conversation now store sid).2 sid
        = some (create_new_conversation now)
    ∧ (get_conversation now store sid).1.question_number = 0
    ∧ (get_conversation now store sid).1.is_complete = false
    ∧ (get_conversation now store sid).1.answers = [] := by
  unfold get_conversation
  cases hs : store sid with
  | none =>
    refine ⟨?_, ?_, ?_, ?_, ?_⟩ <;> simp [storePut, create_new_conversation]
  | some c =>
    have hexp := h c hs
    refine ⟨?_, ?_, ?_, ?_, ?_⟩ <;>
      simp [hexp, storePut, create_new_conversation]

/-- Claim C9 witness: a stored session last updated at time 0 is expired
at time 100000 (more than 24h = 86400s later) and one `get` replaces it by
a brand-new state. -/
theorem claim_C9_witness :
    (get_conversation 100000
        (fun k => if k = "s1" then
          some (⟨2, true, "x", ["a"], 0, some 0⟩ : StoredConversation) else none)
        "s1").1 = create_new_conversation 100000
    ∧ (get_conversation 100000
        (fun k => if k = "s1" then
          some (⟨2, true, "x", ["a"], 0, some 0⟩ : StoredConversation) else none)
        "s1").2 "s1" = some (create_new_conversation 100000)
    ∧ (get_conversation 100000
        (fun k => if k = "s1" then
          some (⟨2, true, "x", ["a"], 0, some 0⟩ : StoredConversation) else none)
        "s1").1.question_number = 0
    ∧ (get_conversation 100000
        (fun k => if k = "s1" then
          some (⟨2, true, "x", ["a"], 0, some 0⟩ : StoredConversation) else none)
        "s1").1.is_complete = false
    ∧ (get_conversation 100000
        (fun k => if k = "s1" then
          some (⟨2, true, "x", ["a"], 0, some 0⟩ : StoredConversation) else none)
        "s1").1.answers = [] :=
  claim_C9 100000 _ "s1" (fun c hc => by
    injection hc with h2
    rw [← h2]
    decide)

/-- The bytes-shape turn refines the shared transport-free semantics, with
its synthesis stage abstracted to its success predicate. -/
theorem from_bytes_core (tr : Except String (Option String))
    (gen : String → List HistoryEntry → Except String (Option String))
    (tts : String → Except String (Option (List Nat)))
    (hist : List HistoryEntry) :
    ((process_audio_conversation_from_bytes tr gen tts hist).1.transcribed_text,
      (process_audio_conversation_from_bytes tr gen tts hist).1.ai_response,
      (process_audio_conversation_from_bytes tr gen tts hist).1.success)
      = (audioTurnCore tr gen (stage3OkBytes tts) hist).1
    ∧ (process_audio_conversation_from_bytes tr gen tts hist).2
      = (audioTurnCore tr gen (stage3OkBytes tts) hist).2 := by
  simp only [process_audio_conversation_from_bytes, audioTurnCore, stage3OkBytes]
  repeat' split
  all_goals simp_all

/-- The path-shape turn refines the same transport-free semantics. -/
theorem path_core (tr : Except String (Option String))
    (gen : String → List HistoryEntry → Except String (Option String))
    (tts : String → Except String (Option (List Nat)))
    (temp_path : String) (hist : List HistoryEntry) :
    ((process_audio_conversation tr gen tts temp_path hist).1.transcribed_text,
      (process_audio_conversation tr gen tts temp_path hist).1.ai_response,
      (process_audio_conversation tr gen tts temp_path hist).1.success)
      = (audioTurnCore tr gen (stage3OkPath tts temp_path) hist).1
    ∧ (process_audio_conversation tr gen tts temp_path hist).2
      = (audioTurnCore tr gen (stage3OkPath tts temp_path) hist).2 := by
  simp only [process_audio_conversation, audioTurnCore, stage3OkPath]
  repeat' split
  all_goals simp_all

/-- The shared semantics' transcript and reply do not depend on the
synthesis stage at all. -/
theorem audioTurnCore_transcript (tr : Except String (Option String))
    (gen : String → List HistoryEntry → Except String (Option String))
    (s3 s3' : String → Bool) (hist : List HistoryEntry) :
    (audioTurnCore tr gen s3 hist).1.1 = (audioTurnCore tr gen s3' hist).1.1
    ∧ (audioTurnCore tr gen s3 hist).1.2.1
      = (audioTurnCore tr gen s3' hist).1.2.1 := by
  simp only [audioTurnCore]
  repeat' split
  all_goals simp_all

/-- Pointwise-equal synthesis predicates give identical shared
semantics. -/
theorem audioTurnCore_ext (tr : Except String (Option String))
    (gen : String → List HistoryEntry → Except String (Option String))
    (s3 s3' : String → Bool) (hist : List HistoryEntry)
    (h : ∀ x, s3 x = s3' x) :
    audioTurnCore tr gen s3 hist = audioTurnCore tr gen s3' hist := by
  rw [funext h]

/-- Claim C10: given the same transcription and response-generation
results, the path-based and bytes-based audio turns produce identical
`transcribed_text` and `ai_response` values unconditionally; and whenever
their synthesis stages succeed alike (the only transport difference), they
also report the same success and make identical history updates. -/
theorem claim_C10 (tr : Except String (Option String))
    (gen : String → List HistoryEntry → Except String (Option String))
    (ttsB ttsP : String → Except String (Option (List Nat)))
    (path : String) (hist : List HistoryEntry) :
    (process_audio_conversation_from_bytes tr gen ttsB hist).1.transcribed_text
      = (process_audio_conversation tr gen ttsP path hist).1.transcribed_text
    ∧ (process_audio_conversation_from_bytes tr gen ttsB hist).1.ai_response
      = (process_audio_conversation tr gen ttsP path hist).1.ai_response
    ∧ ((∀ reply, stage3OkBytes ttsB reply = stage3OkPath ttsP path reply) →
        (process_audio_conversation_from_bytes tr gen ttsB hist).1.success
          = (process_audio_conversation tr gen ttsP path hist).1.success
        ∧ (process_audio_conversation_from_bytes tr gen ttsB hist).2
          = (process_audio_conversation tr gen ttsP path hist).2) := by
  obtain ⟨hB1, hB2⟩ := from_bytes_core tr gen ttsB hist
  obtain ⟨hP1, hP2⟩ := path_core tr gen ttsP path hist
  obtain ⟨ct, ca⟩ := audioTurnCore_transcript tr gen (stage3OkBytes ttsB)
    (stage3OkPath ttsP path) hist
  refine ⟨?_, ?_, ?_⟩
  · exact (congrArg (fun p => p.1) hB1).trans
      (ct.trans (congrArg (fun p => p.1) hP1).symm)
  · exact (congrArg (fun p => p.2.1) hB1).trans
      (ca.trans (congrArg (fun p => p.2.1) hP1).symm)
  · intro hyp
    have hcore := audioTurnCore_ext tr gen _ _ hist hyp
    constructor
    · exact (congrArg (fun p => p.2.2) hB1).trans
        (((congrArg (fun c => c.1.2.2) hcore)).trans
          (congrArg (fun p => p.2.2) hP1).symm)
    · exact hB2.trans ((congrArg Prod.snd hcore).trans hP2.symm)

/-- Claim C10 witness: one concrete turn where both synthesis transports
succeed: transcript and reply agree, and so do success and history. -/
theorem claim_C10_witness :
    (process_audio_conversation_from_bytes (Except.ok (some "hello"))
        (fun _ _ => Except.ok (some "hi")) (fun _ => Except.ok (some [1]))
        []).1.transcribed_text
      = (process_audio_conversation (Except.ok (some "hello"))
        (fun _ _ => Except.ok (some "hi")) (fun _ => Except.ok (some [2]))
        "out.mp3" []).1.transcribed_text
    ∧ ((process_audio_conversation_from_bytes (Except.ok (some "hello"))
        (fun _ _ => Except.ok (some "hi")) (fun _ => Except.ok (some [1]))
        []).1.success
      = (process_audio_conversation (Except.ok (some "hello"))
        (fun _ _ => Except.ok (some "hi")) (fun _ => Except.ok (some [2]))
        "out.mp3" []).1.success
    ∧ (process_audio_conversation_from_bytes (Except.ok (some "hello"))
        (fun _ _ => Except.ok (some "hi")) (fun _ => Except.ok (some [1]))
        []).2
      = (process_audio_conversation (Except.ok (some "hello"))
        (fun _ _ => Except.ok (some "hi")) (fun _ => Except.ok (some [2]))
        "out.mp3" []).2) :=
  ⟨(claim_C10 (Except.ok (some "hello")) (fun _ _ => Except.ok (some "hi"))
      (fun _ => Except.ok (some [1])) (fun _ => Except.ok (some [2]))
      "out.mp3" []).1,
   (claim_C10 (Except.ok (some "hello")) (fun _ _ => Except.ok (some "hi"))
      (fun _ => Except.ok (some [1])) (fun _ => Except.ok (some [2]))
      "out.mp3" []).2.2 (fun _ => rfl)⟩

end SympCheck
